import Mathlib

/-!
Shallow embedding of the Rubrik SDK `Cluster` class (`rubrik/cluster.py`).

Python values that flow through the methods are modelled by the JSON-like
type `Value` (Python `None` is `Value.null`, dictionaries are association
lists in insertion order, which is how Python dicts iterate).  The HTTP
layer (`Api.get` / `Api.post` / `Api.object_id`) is an external collaborator
and is modelled by a `Transport` oracle giving the response to each request;
every observable action a method performs (log lines, transport calls,
printing) is recorded in order as a list of `Effect`s.  `sys.exit` and
Python exceptions (`KeyError`, `TypeError`) are modelled by `Except PyError`:
a method returns its Python result together with the trace of effects it
performed before returning or dying.
-/

namespace Rubrik

/-- A Python value as used by `cluster.py`: strings, ints, booleans, `None`,
lists, and string-keyed dicts kept in insertion order. -/
inductive Value where
  | null : Value
  | bool : Bool → Value
  | int : Int → Value
  | str : String → Value
  | list : List Value → Value
  | dict : List (String × Value) → Value

/-- A Python-level failure: `KeyError` (subscript on a missing key),
`TypeError`, or `SystemExit` as raised by `sys.exit(message)`. -/
inductive PyError where
  | keyError : String → PyError
  | typeError : String → PyError
  | systemExit : String → PyError
  deriving DecidableEq, Repr

/-- An observable action of a method: a `self.log` line, a transport
`get` (api version, endpoint, timeout if one was passed, authentication
flag), a transport `post` (api version, endpoint, body, timeout,
authentication flag), an `object_id` lookup, or a `print`. -/
inductive Effect where
  | log : String → Effect
  | getCall : String → String → Option Nat → Bool → Effect
  | postCall : String → String → Value → Nat → Bool → Effect
  | objectIdCall : String → String → Effect
  | printOut : Value → Effect

/-- The API Transport collaborator: what each request returns.  Responses
may depend on every argument of the request, including whether a timeout
was supplied by the caller. -/
structure Transport where
  getResp : String → String → Option Nat → Bool → Value
  postResp : String → String → Value → Nat → Bool → Value
  objectIdResp : String → String → Value

/-- Python subscripting `v[k]` for a string key: a value from the dict, a
`KeyError` on a dict missing the key, a `TypeError` on a non-dict. -/
def getKey (v : Value) (k : String) : Except PyError Value :=
  match v with
  | Value.dict entries =>
      match entries.lookup k with
      | some x => Except.ok x
      | none => Except.error (PyError.keyError k)
  | _ => Except.error (PyError.typeError "value is not subscriptable by a string key")

/-- A single-quote character, used to reproduce the quoted names inside
the log and error message strings of the source. -/
def squote : String := String.singleton (Char.ofNat 39)

/-- `cluster_version` (cluster.py lines 28-39): log, then GET
`/v1/cluster/me/version` with the caller's timeout, returning the response. -/
def cluster_version (t : Transport) (timeout : Nat := 15) :
    Except PyError Value × List Effect :=
  (Except.ok (t.getResp "v1" "/cluster/me/version" (some timeout) true),
   [Effect.log "cluster_version: Getting the software version of the Rubrik Cluster.",
    Effect.getCall "v1" "/cluster/me/version" (some timeout) true])

/-- `cluster_node_ip` (cluster.py lines 41-59): log, GET
`/internal/cluster/me/node`, then collect `node["ipAddress"]` for each
`node` in `response["data"]`.  A response without a `"data"` key raises
`KeyError`; iterating a non-list raises (modelled as a `TypeError`; the
source would fail similarly on any non-sequence `data`); an entry without
an `"ipAddress"` key raises `KeyError` at the first such entry.  The loop
of lines 56-57 is `collectIpAddresses`: it appends `node["ipAddress"]` for
each node in order, aborting with the Python error at the first node where
the subscript fails. -/
def collectIpAddresses : List Value → Except PyError (List Value)
  | [] => Except.ok []
  | node :: rest =>
    match getKey node "ipAddress" with
    | Except.error e => Except.error e
    | Except.ok ip =>
      match collectIpAddresses rest with
      | Except.error e => Except.error e
      | Except.ok ips => Except.ok (ip :: ips)

def cluster_node_ip (t : Transport) (timeout : Nat := 15) :
    Except PyError (List Value) × List Effect :=
  let api_request := t.getResp "internal" "/cluster/me/node" (some timeout) true
  let node_ip_list : Except PyError (List Value) :=
    match getKey api_request "data" with
    | Except.error e => Except.error e
    | Except.ok (Value.list nodes) => collectIpAddresses nodes
    | Except.ok _ => Except.error (PyError.typeError "data is not a sequence")
  (node_ip_list,
   [Effect.log "cluster_node_ip: Generating a list of all Cluster Node IPs.",
    Effect.getCall "internal" "/cluster/me/node" (some timeout) true])

/-- Exit message of cluster.py line 84. -/
def nodeConfigErrMsg : String :=
  "Error: You must provide a valid dictionary for \"node_config\"."

/-- Exit message of cluster.py line 89. -/
def dnsSearchDomainsErrMsg : String :=
  "Error: You must provide a valid list for \"dns_search_domains\"."

/-- Exit message of cluster.py line 94. -/
def dnsNameserversErrMsg : String :=
  "Error: You must provide a valid list for \"dns_nameservers\"."

/-- Exit message of cluster.py line 99. -/
def ntpServersErrMsg : String :=
  "Error: You must provide a valid list for \"ntp_servers\"."

/-- Log line of cluster.py line 121. -/
def bootstrapLogMsg : String := "bootstrap: Starting the bootstrap process."

/-- The `None` / `isinstance(..., list)` resolution applied to each of
`dns_search_domains`, `dns_nameservers`, `ntp_servers` (cluster.py lines
86-99): `None` becomes the default, a list is kept, anything else exits. -/
def resolveList (v : Value) (dflt : List Value) (errMsg : String) :
    Except PyError (List Value) :=
  match v with
  | Value.null => Except.ok dflt
  | Value.list xs => Except.ok xs
  | _ => Except.error (PyError.systemExit errMsg)

/-- `True` exactly when `v` is a Python dict (`isinstance(v, dict)`). -/
def isDict : Value → Bool
  | Value.dict _ => true
  | _ => false

/-- `True` exactly when `v` is `None` or a Python list, i.e. when `v`
passes the check applied to the three optional list arguments. -/
def isListOrNull : Value → Bool
  | Value.null => true
  | Value.list _ => true
  | _ => false

/-- The `managementIpConfig` sub-dict built for one node (cluster.py lines
116-119): netmask, gateway, address in insertion order. -/
def mkManagementIpConfig (netmask gateway address : Value) : Value :=
  Value.dict [("netmask", netmask), ("gateway", gateway), ("address", address)]

/-- One entry of `nodeConfigs` (cluster.py lines 115-119). -/
def mkNodeConfig (netmask gateway address : Value) : Value :=
  Value.dict [("managementIpConfig", mkManagementIpConfig netmask gateway address)]

/-- The `nodeConfigs` dict (cluster.py lines 113-119): one entry per
`node_config` item, in iteration order. -/
def mkNodeConfigs (management_subnet_mask management_gateway : Value)
    (nodes : List (String × Value)) : Value :=
  Value.dict (nodes.map (fun p =>
    (p.1, mkNodeConfig management_subnet_mask management_gateway p.2)))

/-- The full `bootstrap_config` body (cluster.py lines 101-119), keys in
insertion order. -/
def buildBootstrapConfig (cluster_name admin_email admin_password
    management_gateway management_subnet_mask : Value)
    (enable_encryption : Bool) (nodes : List (String × Value))
    (dsd dnl ntl : List Value) : Value :=
  Value.dict
    [("enableSoftwareEncryptionAtRest", Value.bool enable_encryption),
     ("name", cluster_name),
     ("dnsNameservers", Value.list dnl),
     ("dnsSearchDomains", Value.list dsd),
     ("ntpServers", Value.list ntl),
     ("adminUserInfo", Value.dict
        [("password", admin_password),
         ("emailAddress", admin_email),
         ("id", Value.str "admin")]),
     ("nodeConfigs", mkNodeConfigs management_subnet_mask management_gateway nodes)]

/-- `bootstrap` (cluster.py lines 61-124).  Validation happens in source
order: `node_config` must be a dict (line 83; `None` and every non-dict
exit; note no emptiness check), then each optional list argument is
resolved (lines 86-99; exits on a non-list non-`None` value).  Only then
are the log line and the unauthenticated POST of the assembled body
issued (lines 121-122). -/
def bootstrap (t : Transport)
    (cluster_name admin_email admin_password
     management_gateway management_subnet_mask : Value)
    (enable_encryption : Bool := true) (node_config : Value := Value.null)
    (dns_search_domains : Value := Value.null)
    (dns_nameservers : Value := Value.null)
    (ntp_servers : Value := Value.null) (timeout : Nat := 15) :
    Except PyError Value × List Effect :=
  match node_config with
  | Value.dict nodes =>
    match resolveList dns_search_domains [] dnsSearchDomainsErrMsg with
    | Except.error e => (Except.error e, [])
    | Except.ok dsd =>
      match resolveList dns_nameservers [Value.str "8.8.8.8"] dnsNameserversErrMsg with
      | Except.error e => (Except.error e, [])
      | Except.ok dnl =>
        match resolveList ntp_servers [Value.str "pool.ntp.org"] ntpServersErrMsg with
        | Except.error e => (Except.error e, [])
        | Except.ok ntl =>
          let cfg := buildBootstrapConfig cluster_name admin_email admin_password
            management_gateway management_subnet_mask enable_encryption nodes dsd dnl ntl
          (Except.ok (t.postResp "internal" "/cluster/me/bootstrap" cfg timeout false),
           [Effect.log bootstrapLogMsg,
            Effect.postCall "internal" "/cluster/me/bootstrap" cfg timeout false])
  | _ => (Except.error (PyError.systemExit nodeConfigErrMsg), [])

/-- `bootstrap_status` (cluster.py lines 126-145): log, then an
unauthenticated GET with `request_id` interpolated into the query string. -/
def bootstrap_status (t : Transport) (request_id : String := "1")
    (timeout : Nat := 15) : Except PyError Value × List Effect :=
  let ep := "/cluster/me/bootstrap?request_id=" ++ request_id
  (Except.ok (t.getResp "internal" ep (some timeout) false),
   [Effect.log "bootstrap_status: Getting the status of the Rubrik Cluster bootstrap.",
    Effect.getCall "internal" ep (some timeout) false])

/-- Exit message of cluster.py lines 152-153 after `.format` interpolates
the allowed list, whose Python repr is `[` quote `vmware` quote `]`. -/
def endUserTypeErrMsg : String :=
  "Error: The end_user_authorization() object_type argument must be one of the following: ["
    ++ squote ++ "vmware" ++ squote ++ "]."

/-- `end_user_authorization` (cluster.py lines 147-160): `object_type` must
be in `["vmware"]` or the process exits; otherwise log, resolve the object
name via `object_id`, log, GET the user lookup (note: no timeout argument
is passed to this GET, so the transport default applies), and print the
result.  The method returns `None`.  Its `timeout` parameter is never
used. -/
def end_user_authorization (t : Transport) (object_name end_user : String)
    (object_type : String := "vmware") (timeout : Nat := 15) :
    Except PyError Unit × List Effect :=
  let valid_object_type : List String := ["vmware"]
  if object_type ∈ valid_object_type then
    let user_ep := "/user?username=" ++ end_user
    (Except.ok (),
     [Effect.log ("end_user_authorization: Searching the Rubrik Cluster for the vSphere VM "
        ++ squote ++ object_name ++ squote ++ "."),
      Effect.objectIdCall object_name object_type,
      Effect.log ("end_user_authorization: Searching the Rubrik Cluster for the End User "
        ++ squote ++ end_user ++ squote ++ "."),
      Effect.getCall "internal" user_ep none true,
      Effect.printOut (t.getResp "internal" user_ep none true)])
  else
    (Except.error (PyError.systemExit endUserTypeErrMsg), [])

/-- A transport whose every response is `None`; used to evaluate the
methods at concrete inputs. -/
def trivTransport : Transport :=
  { getResp := fun _ _ _ _ => Value.null,
    postResp := fun _ _ _ _ _ => Value.null,
    objectIdResp := fun _ _ => Value.null }

/-- A transport answering every GET with the fixed value `v`. -/
def respTransport (v : Value) : Transport :=
  { getResp := fun _ _ _ _ => v,
    postResp := fun _ _ _ _ _ => Value.null,
    objectIdResp := fun _ _ => Value.null }

/-! ## Helper lemmas -/

/-- A value passing the list check resolves to some list. -/
theorem resolveList_ok_of_isListOrNull (v : Value) (dflt : List Value) (m : String)
    (h : isListOrNull v = true) : ∃ l, resolveList v dflt m = Except.ok l := by
  cases v <;> first
    | exact ⟨dflt, rfl⟩
    | exact ⟨_, rfl⟩
    | simp [isListOrNull] at h

/-- An omitted (`None`) optional list argument resolves to its default. -/
theorem resolveList_null (dflt : List Value) (m : String) :
    resolveList Value.null dflt m = Except.ok dflt := rfl

/-- A value failing the list check makes `resolveList` exit with the message. -/
theorem resolveList_error_of_not_list (v : Value) (dflt : List Value) (m : String)
    (h : isListOrNull v = false) :
    resolveList v dflt m = Except.error (PyError.systemExit m) := by
  cases v <;> simp [isListOrNull] at h <;> rfl

/-- A non-dict `node_config` makes `bootstrap` exit at line 84 with no effect. -/
theorem bootstrap_exit_of_not_dict (t : Transport)
    (cn ae ap mg msm : Value) (ee : Bool) (nc ds dn ns : Value) (tmo : Nat)
    (h : isDict nc = false) :
    bootstrap t cn ae ap mg msm ee nc ds dn ns tmo =
      (Except.error (PyError.systemExit nodeConfigErrMsg), []) := by
  cases nc <;> simp [isDict] at h <;> rfl

/-- `collectIpAddresses` succeeds when every node yields its ip. -/
theorem collectIpAddresses_ok_of_forall2 (nodes ips : List Value)
    (h : List.Forall₂ (fun node ip => getKey node "ipAddress" = Except.ok ip) nodes ips) :
    collectIpAddresses nodes = Except.ok ips := by
  induction h with
  | nil => rfl
  | cons hh _ ih => simp [collectIpAddresses, hh, ih]

/-- `collectIpAddresses` raises `KeyError "ipAddress"` as soon as every node
is a dict and some node is missing the key. -/
theorem collectIpAddresses_keyError (nodes : List Value)
    (hall : ∀ n ∈ nodes, ∃ ne, n = Value.dict ne)
    (hmiss : ∃ n ∈ nodes, ∃ ne, n = Value.dict ne ∧ ne.lookup "ipAddress" = none) :
    collectIpAddresses nodes = Except.error (PyError.keyError "ipAddress") := by
  induction nodes with
  | nil =>
    rcases hmiss with ⟨n, hn, _⟩
    cases hn
  | cons head tail ih =>
    obtain ⟨he, hheq⟩ := hall head (List.mem_cons_self _ _)
    subst hheq
    cases hlk : he.lookup "ipAddress" with
    | none => simp [collectIpAddresses, getKey, hlk]
    | some ip =>
      have htail : ∃ n ∈ tail, ∃ ne, n = Value.dict ne ∧ ne.lookup "ipAddress" = none := by
        rcases hmiss with ⟨n, hn, ne, hne, hnone⟩
        rcases List.mem_cons.mp hn with h1 | h1
        · subst h1
          injection hne with h2
          subst h2
          rw [hlk] at hnone
          cases hnone
        · exact ⟨n, h1, ne, hne, hnone⟩
      have hrec := ih (fun n hn => hall n (List.mem_cons_of_mem _ hn)) htail
      simp [collectIpAddresses, getKey, hlk, hrec]

/-! ## Claim theorems -/

/-- Claim C2, counterexample: with `node_config` the empty mapping,
`bootstrap` does not terminate the process — validation passes, the POST to
the bootstrap endpoint is issued (with an empty `nodeConfigs`), and the
result is the transport's response, not a `SystemExit`. -/
theorem bootstrap_empty_mapping_proceeds :
    (bootstrap trivTransport (Value.str "c") (Value.str "e") (Value.str "p")
        (Value.str "gw") (Value.str "mask") true (Value.dict []) Value.null
        Value.null Value.null 15).2 =
      [Effect.log bootstrapLogMsg,
       Effect.postCall "internal" "/cluster/me/bootstrap"
         (buildBootstrapConfig (Value.str "c") (Value.str "e") (Value.str "p")
           (Value.str "gw") (Value.str "mask") true [] []
           [Value.str "8.8.8.8"] [Value.str "pool.ntp.org"]) 15 false]
    ∧ (bootstrap trivTransport (Value.str "c") (Value.str "e") (Value.str "p")
        (Value.str "gw") (Value.str "mask") true (Value.dict []) Value.null
        Value.null Value.null 15).1 ≠
      Except.error (PyError.systemExit nodeConfigErrMsg) := by
  refine ⟨rfl, ?_⟩
  intro h
  exact Except.noConfusion h

/-- Claim C2, amended: `bootstrap` validates that `node_config` is a mapping
(not necessarily non-empty) and terminates the process with the
`node_config` error message otherwise; for every `node_config` that is
`None` or not a mapping it terminates with no observable effect, while an
empty mapping passes the check. -/
theorem bootstrap_requires_dict (t : Transport)
    (cn ae ap mg msm : Value) (ee : Bool) (nc ds dn ns : Value) (tmo : Nat)
    (h : isDict nc = false) :
    bootstrap t cn ae ap mg msm ee nc ds dn ns tmo =
      (Except.error (PyError.systemExit nodeConfigErrMsg), []) :=
  bootstrap_exit_of_not_dict t cn ae ap mg msm ee nc ds dn ns tmo h

/-- Witness for the amended C2 theorem at `node_config = None`. -/
theorem bootstrap_requires_dict_witness :
    isDict Value.null = false ∧
    bootstrap trivTransport (Value.str "c") (Value.str "e") (Value.str "p")
        (Value.str "gw") (Value.str "mask") true Value.null Value.null
        Value.null Value.null 15 =
      (Except.error (PyError.systemExit nodeConfigErrMsg), []) :=
  ⟨rfl, bootstrap_requires_dict trivTransport (Value.str "c") (Value.str "e")
    (Value.str "p") (Value.str "gw") (Value.str "mask") true Value.null
    Value.null Value.null Value.null 15 rfl⟩

/-- Claim C8: for every `object_type` outside the fixed allowed set
`["vmware"]`, `end_user_authorization` terminates the process with the
formatted error message and performs no effect at all — neither the
`object_id` lookup nor the user GET is issued. -/
theorem end_user_authorization_invalid_type_exits (t : Transport)
    (object_name end_user object_type : String) (tmo : Nat)
    (h : object_type ∉ (["vmware"] : List String)) :
    end_user_authorization t object_name end_user object_type tmo =
      (Except.error (PyError.systemExit endUserTypeErrMsg), []) := by
  have h2 : ¬ object_type = "vmware" := by simpa using h
  simp [end_user_authorization, h2]

/-- Witness for C8 at `object_type = "hyperv"`. -/
theorem end_user_authorization_invalid_type_exits_witness :
    "hyperv" ∉ (["vmware"] : List String) ∧
    end_user_authorization trivTransport "vm1" "user1" "hyperv" 15 =
      (Except.error (PyError.systemExit endUserTypeErrMsg), []) :=
  ⟨by decide,
   end_user_authorization_invalid_type_exits trivTransport "vm1" "user1" "hyperv" 15
     (by decide)⟩

/-- Claim C9: for every call with a valid `object_type`, the method resolves
the object name via `object_id`, issues the user-lookup GET (with no
timeout argument), prints the lookup result, and returns `None` (unit). -/
theorem end_user_authorization_flow (t : Transport)
    (object_name end_user object_type : String) (tmo : Nat)
    (h : object_type ∈ (["vmware"] : List String)) :
    end_user_authorization t object_name end_user object_type tmo =
      (Except.ok (),
       [Effect.log ("end_user_authorization: Searching the Rubrik Cluster for the vSphere VM "
          ++ squote ++ object_name ++ squote ++ "."),
        Effect.objectIdCall object_name object_type,
        Effect.log ("end_user_authorization: Searching the Rubrik Cluster for the End User "
          ++ squote ++ end_user ++ squote ++ "."),
        Effect.getCall "internal" ("/user?username=" ++ end_user) none true,
        Effect.printOut (t.getResp "internal" ("/user?username=" ++ end_user) none true)]) := by
  have h2 : object_type = "vmware" := by simpa using h
  subst h2
  simp [end_user_authorization]

/-- Witness for C9 at `object_type = "vmware"`. -/
theorem end_user_authorization_flow_witness :
    "vmware" ∈ (["vmware"] : List String) ∧
    end_user_authorization trivTransport "vm1" "user1" "vmware" 15 =
      (Except.ok (),
       [Effect.log ("end_user_authorization: Searching the Rubrik Cluster for the vSphere VM "
          ++ squote ++ "vm1" ++ squote ++ "."),
        Effect.objectIdCall "vm1" "vmware",
        Effect.log ("end_user_authorization: Searching the Rubrik Cluster for the End User "
          ++ squote ++ "user1" ++ squote ++ "."),
        Effect.getCall "internal" ("/user?username=" ++ "user1") none true,
        Effect.printOut (trivTransport.getResp "internal" ("/user?username=" ++ "user1") none true)]) :=
  ⟨by decide,
   end_user_authorization_flow trivTransport "vm1" "user1" "vmware" 15 (by decide)⟩

/-- Claim C10: the `timeout` argument of `end_user_authorization` has no
effect — for any two timeout values and otherwise identical inputs and
transport, the method performs the same effects in the same order (the
user-lookup GET carries no caller timeout) and produces the same result. -/
theorem end_user_authorization_timeout_irrelevant (t : Transport)
    (object_name end_user object_type : String) (to1 to2 : Nat) :
    end_user_authorization t object_name end_user object_type to1 =
      end_user_authorization t object_name end_user object_type to2 := rfl

/-- Claim C1: for every `node_config` passing bootstrap's validation (a
mapping from node name to IP) and valid optional list arguments, the body
posted to the bootstrap endpoint has a `nodeConfigs` entry for exactly the
keys of `node_config`, in order, and each entry's `managementIpConfig`
holds the caller's `management_subnet_mask` as netmask, the caller's
`management_gateway` as gateway, and that node's IP as address. -/
theorem bootstrap_nodeConfigs_exact (t : Transport)
    (cn ae ap mg msm : Value) (ee : Bool) (nodes : List (String × Value))
    (ds dn ns : Value) (tmo : Nat)
    (hds : isListOrNull ds = true) (hdn : isListOrNull dn = true)
    (hns : isListOrNull ns = true) :
    ∃ body rest,
      (bootstrap t cn ae ap mg msm ee (Value.dict nodes) ds dn ns tmo).2 =
        rest ++ [Effect.postCall "internal" "/cluster/me/bootstrap" body tmo false]
      ∧ getKey body "nodeConfigs" =
          Except.ok (Value.dict (nodes.map (fun p => (p.1, mkNodeConfig msm mg p.2))))
      ∧ (nodes.map (fun p => (p.1, mkNodeConfig msm mg p.2))).map Prod.fst =
          nodes.map Prod.fst
      ∧ ∀ p ∈ nodes, getKey (mkNodeConfig msm mg p.2) "managementIpConfig" =
          Except.ok (Value.dict [("netmask", msm), ("gateway", mg), ("address", p.2)]) := by
  obtain ⟨l1, h1⟩ := resolveList_ok_of_isListOrNull ds [] dnsSearchDomainsErrMsg hds
  obtain ⟨l2, h2⟩ :=
    resolveList_ok_of_isListOrNull dn [Value.str "8.8.8.8"] dnsNameserversErrMsg hdn
  obtain ⟨l3, h3⟩ :=
    resolveList_ok_of_isListOrNull ns [Value.str "pool.ntp.org"] ntpServersErrMsg hns
  refine ⟨buildBootstrapConfig cn ae ap mg msm ee nodes l1 l2 l3,
    [Effect.log bootstrapLogMsg], ?_, rfl, ?_, ?_⟩
  · simp [bootstrap, h1, h2, h3]
  · simp [List.map_map, Function.comp]
  · intro p _
    rfl

/-- Witness for C1 with one node and the optional arguments omitted. -/
theorem bootstrap_nodeConfigs_exact_witness :
    isListOrNull Value.null = true ∧
    ∃ body rest,
      (bootstrap trivTransport (Value.str "c") (Value.str "e") (Value.str "p")
          (Value.str "gw") (Value.str "mask") true
          (Value.dict [("node1", Value.str "10.0.0.1")]) Value.null Value.null
          Value.null 15).2 =
        rest ++ [Effect.postCall "internal" "/cluster/me/bootstrap" body 15 false]
      ∧ getKey body "nodeConfigs" =
          Except.ok (Value.dict ([("node1", Value.str "10.0.0.1")].map
            (fun p => (p.1, mkNodeConfig (Value.str "mask") (Value.str "gw") p.2))))
      ∧ (([("node1", Value.str "10.0.0.1")].map
            (fun p => (p.1, mkNodeConfig (Value.str "mask") (Value.str "gw") p.2))).map
            Prod.fst) = [("node1", Value.str "10.0.0.1")].map Prod.fst
      ∧ ∀ p ∈ [("node1", Value.str "10.0.0.1")],
          getKey (mkNodeConfig (Value.str "mask") (Value.str "gw") p.2) "managementIpConfig" =
            Except.ok (Value.dict [("netmask", Value.str "mask"),
              ("gateway", Value.str "gw"), ("address", p.2)]) :=
  ⟨rfl, bootstrap_nodeConfigs_exact trivTransport (Value.str "c") (Value.str "e")
    (Value.str "p") (Value.str "gw") (Value.str "mask") true
    [("node1", Value.str "10.0.0.1")] Value.null Value.null Value.null 15
    rfl rfl rfl⟩

/-- Claim C3: for every call to `bootstrap` with `node_config` equal to
`None` or a non-mapping value, or with a non-list override for
`dns_search_domains`, `dns_nameservers`, or `ntp_servers`, the process
terminates with a `SystemExit` message and the effect trace is empty: the
transport is never invoked and nothing is logged or posted. -/
theorem bootstrap_invalid_input_no_transport (t : Transport)
    (cn ae ap mg msm : Value) (ee : Bool) (nc ds dn ns : Value) (tmo : Nat)
    (h : isDict nc = false ∨ isListOrNull ds = false ∨ isListOrNull dn = false
      ∨ isListOrNull ns = false) :
    ∃ msg, bootstrap t cn ae ap mg msm ee nc ds dn ns tmo =
      (Except.error (PyError.systemExit msg), []) := by
  cases nc with
  | dict nodes =>
    rcases h with h | h | h | h
    · simp [isDict] at h
    · exact ⟨dnsSearchDomainsErrMsg,
        by simp [bootstrap, resolveList_error_of_not_list ds [] dnsSearchDomainsErrMsg h]⟩
    · cases hds : isListOrNull ds with
      | false =>
        exact ⟨dnsSearchDomainsErrMsg,
          by simp [bootstrap, resolveList_error_of_not_list ds [] dnsSearchDomainsErrMsg hds]⟩
      | true =>
        obtain ⟨l1, h1⟩ := resolveList_ok_of_isListOrNull ds [] dnsSearchDomainsErrMsg hds
        exact ⟨dnsNameserversErrMsg, by
          simp [bootstrap, h1,
            resolveList_error_of_not_list dn [Value.str "8.8.8.8"] dnsNameserversErrMsg h]⟩
    · cases hds : isListOrNull ds with
      | false =>
        exact ⟨dnsSearchDomainsErrMsg,
          by simp [bootstrap, resolveList_error_of_not_list ds [] dnsSearchDomainsErrMsg hds]⟩
      | true =>
        obtain ⟨l1, h1⟩ := resolveList_ok_of_isListOrNull ds [] dnsSearchDomainsErrMsg hds
        cases hdn : isListOrNull dn with
        | false =>
          exact ⟨dnsNameserversErrMsg, by
            simp [bootstrap, h1,
              resolveList_error_of_not_list dn [Value.str "8.8.8.8"] dnsNameserversErrMsg hdn]⟩
        | true =>
          obtain ⟨l2, h2⟩ :=
            resolveList_ok_of_isListOrNull dn [Value.str "8.8.8.8"] dnsNameserversErrMsg hdn
          exact ⟨ntpServersErrMsg, by
            simp [bootstrap, h1, h2,
              resolveList_error_of_not_list ns [Value.str "pool.ntp.org"] ntpServersErrMsg h]⟩
  | null => exact ⟨nodeConfigErrMsg, bootstrap_exit_of_not_dict t cn ae ap mg msm ee
      Value.null ds dn ns tmo rfl⟩
  | bool b => exact ⟨nodeConfigErrMsg, bootstrap_exit_of_not_dict t cn ae ap mg msm ee
      (Value.bool b) ds dn ns tmo rfl⟩
  | int n => exact ⟨nodeConfigErrMsg, bootstrap_exit_of_not_dict t cn ae ap mg msm ee
      (Value.int n) ds dn ns tmo rfl⟩
  | str s => exact ⟨nodeConfigErrMsg, bootstrap_exit_of_not_dict t cn ae ap mg msm ee
      (Value.str s) ds dn ns tmo rfl⟩
  | list xs => exact ⟨nodeConfigErrMsg, bootstrap_exit_of_not_dict t cn ae ap mg msm ee
      (Value.list xs) ds dn ns tmo rfl⟩

/-- Witness for C3: a string `node_config` makes `bootstrap` exit with an
empty effect trace. -/
theorem bootstrap_invalid_input_no_transport_witness :
    (isDict (Value.str "nodes") = false ∨
      isListOrNull Value.null = false ∨ isListOrNull Value.null = false
      ∨ isListOrNull Value.null = false) ∧
    ∃ msg, bootstrap trivTransport (Value.str "c") (Value.str "e") (Value.str "p")
        (Value.str "gw") (Value.str "mask") true (Value.str "nodes") Value.null
        Value.null Value.null 15 =
      (Except.error (PyError.systemExit msg), []) :=
  ⟨Or.inl rfl, bootstrap_invalid_input_no_transport trivTransport (Value.str "c")
    (Value.str "e") (Value.str "p") (Value.str "gw") (Value.str "mask") true
    (Value.str "nodes") Value.null Value.null Value.null 15 (Or.inl rfl)⟩

/-- Claim C4: for every bootstrap call that reaches request construction,
an omitted (`None`) `dns_nameservers` makes the posted body's
`dnsNameservers` exactly `["8.8.8.8"]`, an omitted `ntp_servers` makes its
`ntpServers` exactly `["pool.ntp.org"]`, and an omitted
`dns_search_domains` makes its `dnsSearchDomains` exactly the empty list. -/
theorem bootstrap_defaults (t : Transport)
    (cn ae ap mg msm : Value) (ee : Bool) (nodes : List (String × Value))
    (ds dn ns : Value) (tmo : Nat)
    (hds : isListOrNull ds = true) (hdn : isListOrNull dn = true)
    (hns : isListOrNull ns = true) :
    (dn = Value.null → ∃ body rest,
        (bootstrap t cn ae ap mg msm ee (Value.dict nodes) ds dn ns tmo).2 =
          rest ++ [Effect.postCall "internal" "/cluster/me/bootstrap" body tmo false]
        ∧ getKey body "dnsNameservers" = Except.ok (Value.list [Value.str "8.8.8.8"]))
    ∧ (ns = Value.null → ∃ body rest,
        (bootstrap t cn ae ap mg msm ee (Value.dict nodes) ds dn ns tmo).2 =
          rest ++ [Effect.postCall "internal" "/cluster/me/bootstrap" body tmo false]
        ∧ getKey body "ntpServers" = Except.ok (Value.list [Value.str "pool.ntp.org"]))
    ∧ (ds = Value.null → ∃ body rest,
        (bootstrap t cn ae ap mg msm ee (Value.dict nodes) ds dn ns tmo).2 =
          rest ++ [Effect.postCall "internal" "/cluster/me/bootstrap" body tmo false]
        ∧ getKey body "dnsSearchDomains" = Except.ok (Value.list [])) := by
  refine ⟨?_, ?_, ?_⟩
  · intro hdn0
    subst hdn0
    obtain ⟨l1, h1⟩ := resolveList_ok_of_isListOrNull ds [] dnsSearchDomainsErrMsg hds
    obtain ⟨l3, h3⟩ :=
      resolveList_ok_of_isListOrNull ns [Value.str "pool.ntp.org"] ntpServersErrMsg hns
    exact ⟨buildBootstrapConfig cn ae ap mg msm ee nodes l1 [Value.str "8.8.8.8"] l3,
      [Effect.log bootstrapLogMsg], by simp [bootstrap, h1, h3, resolveList_null], rfl⟩
  · intro hns0
    subst hns0
    obtain ⟨l1, h1⟩ := resolveList_ok_of_isListOrNull ds [] dnsSearchDomainsErrMsg hds
    obtain ⟨l2, h2⟩ :=
      resolveList_ok_of_isListOrNull dn [Value.str "8.8.8.8"] dnsNameserversErrMsg hdn
    exact ⟨buildBootstrapConfig cn ae ap mg msm ee nodes l1 l2 [Value.str "pool.ntp.org"],
      [Effect.log bootstrapLogMsg], by simp [bootstrap, h1, h2, resolveList_null], rfl⟩
  · intro hds0
    subst hds0
    obtain ⟨l2, h2⟩ :=
      resolveList_ok_of_isListOrNull dn [Value.str "8.8.8.8"] dnsNameserversErrMsg hdn
    obtain ⟨l3, h3⟩ :=
      resolveList_ok_of_isListOrNull ns [Value.str "pool.ntp.org"] ntpServersErrMsg hns
    exact ⟨buildBootstrapConfig cn ae ap mg msm ee nodes [] l2 l3,
      [Effect.log bootstrapLogMsg], by simp [bootstrap, h2, h3, resolveList_null], rfl⟩

/-- Witness for C4 with all three optional list arguments omitted. -/
theorem bootstrap_defaults_witness :
    isListOrNull Value.null = true ∧
    ((Value.null = Value.null → ∃ body rest,
        (bootstrap trivTransport (Value.str "c") (Value.str "e") (Value.str "p")
            (Value.str "gw") (Value.str "mask") true
            (Value.dict [("node1", Value.str "10.0.0.1")]) Value.null Value.null
            Value.null 15).2 =
          rest ++ [Effect.postCall "internal" "/cluster/me/bootstrap" body 15 false]
        ∧ getKey body "dnsNameservers" = Except.ok (Value.list [Value.str "8.8.8.8"]))
    ∧ (Value.null = Value.null → ∃ body rest,
        (bootstrap trivTransport (Value.str "c") (Value.str "e") (Value.str "p")
            (Value.str "gw") (Value.str "mask") true
            (Value.dict [("node1", Value.str "10.0.0.1")]) Value.null Value.null
            Value.null 15).2 =
          rest ++ [Effect.postCall "internal" "/cluster/me/bootstrap" body 15 false]
        ∧ getKey body "ntpServers" = Except.ok (Value.list [Value.str "pool.ntp.org"]))
    ∧ (Value.null = Value.null → ∃ body rest,
        (bootstrap trivTransport (Value.str "c") (Value.str "e") (Value.str "p")
            (Value.str "gw") (Value.str "mask") true
            (Value.dict [("node1", Value.str "10.0.0.1")]) Value.null Value.null
            Value.null 15).2 =
          rest ++ [Effect.postCall "internal" "/cluster/me/bootstrap" body 15 false]
        ∧ getKey body "dnsSearchDomains" = Except.ok (Value.list []))) :=
  ⟨rfl, bootstrap_defaults trivTransport (Value.str "c") (Value.str "e")
    (Value.str "p") (Value.str "gw") (Value.str "mask") true
    [("node1", Value.str "10.0.0.1")] Value.null Value.null Value.null 15
    rfl rfl rfl⟩

/-- Claim C5, counterexample: a bootstrap call whose required scalar
arguments are all the empty string (with a valid `node_config`) still
constructs the request body — carrying the empty cluster name — and issues
the POST, so required scalars are not validated. -/
theorem bootstrap_empty_scalars_posts :
    ∃ body rest,
      (bootstrap trivTransport (Value.str "") (Value.str "") (Value.str "")
          (Value.str "") (Value.str "") true
          (Value.dict [("node1", Value.str "10.0.0.1")]) Value.null Value.null
          Value.null 15).2 =
        rest ++ [Effect.postCall "internal" "/cluster/me/bootstrap" body 15 false]
      ∧ getKey body "name" = Except.ok (Value.str "") :=
  ⟨buildBootstrapConfig (Value.str "") (Value.str "") (Value.str "")
      (Value.str "") (Value.str "") true [("node1", Value.str "10.0.0.1")] []
      [Value.str "8.8.8.8"] [Value.str "pool.ntp.org"],
    [Effect.log bootstrapLogMsg], rfl, rfl⟩

/-- Claim C5, amended: the only per-call checks are on `node_config`, the
three optional list arguments, and `object_type`; the required scalar
arguments of `bootstrap` are not validated at all — for every values of
`cluster_name`, `admin_email`, `admin_password`, `management_gateway`,
`management_subnet_mask` (empty or wrongly typed included), the body is
constructed containing them verbatim and the POST is issued. -/
theorem bootstrap_scalars_unchecked (t : Transport)
    (cn ae ap mg msm : Value) (ee : Bool) (nodes : List (String × Value))
    (tmo : Nat) :
    (bootstrap t cn ae ap mg msm ee (Value.dict nodes) Value.null Value.null
        Value.null tmo).2 =
      [Effect.log bootstrapLogMsg,
       Effect.postCall "internal" "/cluster/me/bootstrap"
         (buildBootstrapConfig cn ae ap mg msm ee nodes []
           [Value.str "8.8.8.8"] [Value.str "pool.ntp.org"]) tmo false]
    ∧ getKey (buildBootstrapConfig cn ae ap mg msm ee nodes []
        [Value.str "8.8.8.8"] [Value.str "pool.ntp.org"]) "name" = Except.ok cn
    ∧ getKey (buildBootstrapConfig cn ae ap mg msm ee nodes []
        [Value.str "8.8.8.8"] [Value.str "pool.ntp.org"]) "adminUserInfo" =
      Except.ok (Value.dict [("password", ap), ("emailAddress", ae),
        ("id", Value.str "admin")]) :=
  ⟨rfl, rfl, rfl⟩

/-- Claim C6: for every transport response whose `data` field is a sequence
of entries each carrying an `ipAddress`, `cluster_node_ip` returns exactly
the list of those `ipAddress` values in the order of the `data` entries. -/
theorem cluster_node_ip_extracts (t : Transport) (tmo : Nat)
    (entries : List (String × Value)) (nodes ips : List Value)
    (hresp : t.getResp "internal" "/cluster/me/node" (some tmo) true = Value.dict entries)
    (hdata : entries.lookup "data" = some (Value.list nodes))
    (hips : List.Forall₂ (fun node ip => getKey node "ipAddress" = Except.ok ip) nodes ips) :
    (cluster_node_ip t tmo).1 = Except.ok ips := by
  have hcollect := collectIpAddresses_ok_of_forall2 nodes ips hips
  simp [cluster_node_ip, getKey, hresp, hdata, hcollect]

/-- Witness for C6 on the response of the spec's example. -/
theorem cluster_node_ip_extracts_witness :
    (cluster_node_ip (respTransport (Value.dict [("data", Value.list
        [Value.dict [("ipAddress", Value.str "10.0.0.1")],
         Value.dict [("ipAddress", Value.str "10.0.0.2")]])])) 15).1 =
      Except.ok [Value.str "10.0.0.1", Value.str "10.0.0.2"] :=
  cluster_node_ip_extracts
    (respTransport (Value.dict [("data", Value.list
      [Value.dict [("ipAddress", Value.str "10.0.0.1")],
       Value.dict [("ipAddress", Value.str "10.0.0.2")]])])) 15
    [("data", Value.list
      [Value.dict [("ipAddress", Value.str "10.0.0.1")],
       Value.dict [("ipAddress", Value.str "10.0.0.2")]])]
    [Value.dict [("ipAddress", Value.str "10.0.0.1")],
     Value.dict [("ipAddress", Value.str "10.0.0.2")]]
    [Value.str "10.0.0.1", Value.str "10.0.0.2"]
    rfl rfl
    (List.Forall₂.cons rfl (List.Forall₂.cons rfl List.Forall₂.nil))

/-- Claim C7: a response that is a mapping without a `data` key makes
`cluster_node_ip` fail with `KeyError "data"`; a response whose `data`
entries are mappings but some entry lacks `ipAddress` makes it fail with
`KeyError "ipAddress"`; conversely, a response of the expected shape never
reaches the error branch. -/
theorem cluster_node_ip_key_error_semantics (t : Transport) (tmo : Nat) :
    (∀ entries,
      t.getResp "internal" "/cluster/me/node" (some tmo) true = Value.dict entries →
      entries.lookup "data" = none →
      (cluster_node_ip t tmo).1 = Except.error (PyError.keyError "data"))
    ∧ (∀ entries nodes,
      t.getResp "internal" "/cluster/me/node" (some tmo) true = Value.dict entries →
      entries.lookup "data" = some (Value.list nodes) →
      (∀ n ∈ nodes, ∃ ne, n = Value.dict ne) →
      (∃ n ∈ nodes, ∃ ne, n = Value.dict ne ∧ ne.lookup "ipAddress" = none) →
      (cluster_node_ip t tmo).1 = Except.error (PyError.keyError "ipAddress"))
    ∧ (∀ entries nodes ips,
      t.getResp "internal" "/cluster/me/node" (some tmo) true = Value.dict entries →
      entries.lookup "data" = some (Value.list nodes) →
      List.Forall₂ (fun node ip => getKey node "ipAddress" = Except.ok ip) nodes ips →
      ∃ result, (cluster_node_ip t tmo).1 = Except.ok result) := by
  refine ⟨?_, ?_, ?_⟩
  · intro entries hresp hnone
    simp [cluster_node_ip, getKey, hresp, hnone]
  · intro entries nodes hresp hdata hall hmiss
    have hcollect := collectIpAddresses_keyError nodes hall hmiss
    simp [cluster_node_ip, getKey, hresp, hdata, hcollect]
  · intro entries nodes ips hresp hdata hips
    have hcollect := collectIpAddresses_ok_of_forall2 nodes ips hips
    exact ⟨ips, by simp [cluster_node_ip, getKey, hresp, hdata, hcollect]⟩

/-- Witness for C7: a response without `data`, a response whose single data
entry lacks `ipAddress`, and a well-shaped response. -/
theorem cluster_node_ip_key_error_semantics_witness :
    (cluster_node_ip (respTransport (Value.dict [])) 15).1 =
      Except.error (PyError.keyError "data")
    ∧ (cluster_node_ip (respTransport
        (Value.dict [("data", Value.list [Value.dict []])])) 15).1 =
      Except.error (PyError.keyError "ipAddress")
    ∧ ∃ result, (cluster_node_ip (respTransport
        (Value.dict [("data", Value.list
          [Value.dict [("ipAddress", Value.str "10.0.0.9")]])])) 15).1 =
      Except.ok result :=
  ⟨(cluster_node_ip_key_error_semantics (respTransport (Value.dict [])) 15).1
      [] rfl rfl,
   (cluster_node_ip_key_error_semantics (respTransport
        (Value.dict [("data", Value.list [Value.dict []])])) 15).2.1
      [("data", Value.list [Value.dict []])] [Value.dict []] rfl rfl
      (by
        intro n hn
        simp only [List.mem_singleton] at hn
        exact ⟨[], hn⟩)
      ⟨Value.dict [], List.mem_singleton.mpr rfl, [], rfl, rfl⟩,
   (cluster_node_ip_key_error_semantics (respTransport
        (Value.dict [("data", Value.list
          [Value.dict [("ipAddress", Value.str "10.0.0.9")]])])) 15).2.2
      [("data", Value.list [Value.dict [("ipAddress", Value.str "10.0.0.9")]])]
      [Value.dict [("ipAddress", Value.str "10.0.0.9")]]
      [Value.str "10.0.0.9"] rfl rfl
      (List.Forall₂.cons rfl List.Forall₂.nil)⟩

end Rubrik
